import Mathlib

/-!
Verification of the process-handling module of a coverage tool
(`src/process_handling/mod.rs`): the Launch Dispatcher (`launch_test`,
`execute_test`), the Process Handle (`RunningProcessHandle`), and the
Coverage Collector (`get_test_coverage`, `collect_coverage`).

The Rust module is shallowly embedded: ambient OS state (current working
directory, environment variables, the listing of the project root
directory, and spawned processes) is threaded explicitly through a
`SysState` record.  Fallible OS calls are modelled by explicit parameters
(`canSetDir` for `env::set_current_dir`, `spawnErr` for `cmd.spawn()`,
`childEarly` for directory entries the spawned child creates between
`cmd.spawn()` and `fs::read_dir`).  Types the module imports from
elsewhere in the crate (`TraceEngine`, `Color`, `Config`, `TestBinary`,
`RunError`, `TestState`) are modelled from the spec where noted.
-/

namespace Tarpaulin

/-- A file-system path, modelled as a string. -/
abbrev Path := String

/-- Modelled from the spec: the crate-level `TraceEngine` enum (the selected
engine is "tracer" (`Ptrace`), "instrumentation-log" (`Llvm`), or another,
unsupported, value). -/
inductive TraceEngine where
  | Ptrace
  | Llvm
  | Auto
deriving DecidableEq

/-- Modelled from the spec: the crate-level `config::Color` mode. -/
inductive Color where
  | Auto
  | Always
  | Never
deriving DecidableEq

/-- Lower-cased rendering used for the `--color` argument
(`config.color.to_string().to_ascii_lowercase()`). -/
def colorName : Color → String
  | Color.Auto => "auto"
  | Color.Always => "always"
  | Color.Never => "never"

/-- Modelled from the spec: the slice of the crate-level `Config` this module
reads (`engine()`, `root()`, `verbose`, `varargs`, `color`). -/
structure Config where
  engine : TraceEngine
  root : Path
  verbose : Bool
  varargs : List String
  color : Color
deriving DecidableEq

/-- Modelled from the spec: the test binary descriptor (`TestBinary`) —
executable path, file name, and the optional package metadata this module
reads. -/
structure TestBinary where
  path : Path
  fileName : String
  pkgName : Option String
  pkgVersion : Option String
  pkgAuthors : Option (List String)
  manifestDir : Option Path
deriving DecidableEq

/-- Modelled from the spec: the crate-level `RunError` variants this module
constructs or forwards (`TestCoverage`, `Engine`, a mid-run OS/trace failure
`TestRuntime`, and a wrapped I/O error). -/
inductive RunError where
  | TestCoverage (msg : String)
  | Engine (msg : String)
  | TestRuntime (msg : String)
  | IoErr (msg : String)
deriving DecidableEq

/-- Modelled from the spec: the `Display` rendering of `RunError` used by
`e.to_string()`; the exact wording lives outside this module and is
immaterial to the claims, only that it is a plain string. -/
def errToString : RunError → String
  | RunError.TestCoverage m => "Failed to get test coverage! Error: " ++ m
  | RunError.Engine m => "Engine error: " ++ m
  | RunError.TestRuntime m => m
  | RunError.IoErr m => m

/-- One entry of a directory listing: a file name together with whether the
entry is a regular file (`x.path().is_file()`). -/
structure DirEntry where
  name : String
  isFile : Bool
deriving DecidableEq

/-- The characters after the last dot of a character list, when it has a
dot. -/
def afterLastDot : List Char → Option (List Char)
  | [] => none
  | c :: cs =>
    match afterLastDot cs with
    | some e => some e
    | none => if c = '.' then some cs else none

/-- Rust `Path::extension` on a file name: the portion after the final dot,
where a dot in leading position alone does not count (a hidden file such as
`.profraw` has no extension). -/
def extension (name : String) : Option String :=
  match name.data with
  | [] => none
  | _ :: rest =>
    match afterLastDot rest with
    | some e => some (String.mk e)
    | none => none

/-- The filter applied by `RunningProcessHandle::new` to the root directory
listing: keep regular files whose extension is `profraw`, and take their
paths. -/
def profrawFilter (entries : List DirEntry) : List Path :=
  (entries.filter fun e => e.isFile && (extension e.name == some "profraw")).map DirEntry.name

/-- Ambient OS state threaded through the embedding: the calling process's
working directory and environment, the listing of the configured root
directory, and the executables spawned so far. -/
structure SysState where
  cwd : Path
  envVars : List (String × String)
  rootDir : List DirEntry
  spawned : List Path
deriving DecidableEq

/-- Embedding of `RunningProcessHandle`: the binary path, the environment and
arguments the child was spawned with (the `Command`), and the recorded
pre-existing profraw files. -/
structure RunningProcessHandle where
  path : Path
  cmdEnv : List (String × String)
  cmdArgs : List String
  existing_profraws : List Path
deriving DecidableEq

/-- Embedding of `RunningProcessHandle::new`.  In the source the child is
spawned FIRST (`cmd.spawn()?`) and only then is `fs::read_dir(config.root())`
taken, so the snapshot sees the root listing as of snapshot time:
`rootBefore` (the listing at spawn time) together with `childEarly` (entries
the child created between spawn and `read_dir`).  The fallible `read_dir` is
modelled as total over the given listing. -/
def RunningProcessHandle.new (path : Path) (cmdEnv : List (String × String))
    (cmdArgs : List String) (rootBefore childEarly : List DirEntry) :
    RunningProcessHandle :=
  { path := path
    cmdEnv := cmdEnv
    cmdArgs := cmdArgs
    existing_profraws := profrawFilter (rootBefore ++ childEarly) }

/-- Embedding of `TestHandle`: either a raw traced process id or a spawned
child handle. -/
inductive TestHandle where
  | Id (pid : Nat)
  | Process (h : RunningProcessHandle)
deriving DecidableEq

/-- The working directory `execute_test` passes to `env::set_current_dir`:
the binary's manifest directory when present, the configured root
otherwise. -/
def cwdTarget (test : TestBinary) (config : Config) : Path :=
  match test.manifestDir with
  | some md => md
  | none => config.root

/-- Append an optional `(key, value)` environment entry, as the four
`if let Some(s) = ... envars.push(...)` blocks do. -/
def optPair (key : String) : Option String → List (String × String)
  | some v => [(key, v)]
  | none => []

/-- The child environment assembled by `execute_test` before the
engine-specific step: the inherited environment, then `RUST_BACKTRACE=1`
when verbose, then the available `CARGO_*` package metadata, in source
order. -/
def execute_envars (sysEnv : List (String × String)) (test : TestBinary)
    (config : Config) : List (String × String) :=
  ((((sysEnv
      ++ (if config.verbose then [("RUST_BACKTRACE", "1")] else []))
      ++ optPair "CARGO_PKG_NAME" test.pkgName)
      ++ optPair "CARGO_PKG_VERSION" test.pkgVersion)
      ++ (match test.pkgAuthors with
          | some s => [("CARGO_PKG_AUTHORS", String.intercalate ":" s)]
          | none => []))
      ++ optPair "CARGO_MANIFEST_DIR" test.manifestDir

/-- The argument vector assembled by `execute_test`: `--ignored` when
requested, then the configured varargs, then an explicit `--color` flag when
the mode is not `Auto`. -/
def execute_argv (ignored : Bool) (config : Config) : List String :=
  ((if ignored then ["--ignored"] else [])
      ++ config.varargs)
      ++ (if config.color ≠ Color.Auto then ["--color", colorName config.color] else [])

/-- Embedding of `execute_test`.  Parameters modelling the OS:
`isLinux` — whether the `cfg(target_os = "linux")` arm exists;
`ptraceExec` — the platform executor `execute(...)` the linux ptrace arm
delegates to (outside this module);
`canSetDir` — whether `env::set_current_dir` succeeds on a given path (its
result is discarded by `let _ = ...`, so failure only leaves the directory
unchanged);
`childEarly` — root-directory entries created by the spawned child between
`cmd.spawn()` and the `fs::read_dir` snapshot;
`spawnErr` — `some e` when `cmd.spawn()` fails with `e`, `none` on success.
Every arm returns the post-`set_current_dir` state: the directory change is
never undone. -/
def execute_test (isLinux : Bool)
    (ptraceExec : SysState → Except RunError TestHandle × SysState)
    (canSetDir : Path → Bool) (childEarly : List DirEntry)
    (spawnErr : Option RunError)
    (test : TestBinary) (ignored : Bool) (config : Config) (sys : SysState) :
    Except RunError TestHandle × SysState :=
  let target := cwdTarget test config
  let sys1 := if canSetDir target then { sys with cwd := target } else sys
  let envars := execute_envars sys1.envVars test config
  let argv := execute_argv ignored config
  match config.engine with
  | TraceEngine.Llvm =>
    let envars := envars ++ [("LLVM_PROFILE_FILE", test.fileName ++ "_%p.profraw")]
    match spawnErr with
    | some e => (Except.error e, sys1)
    | none =>
      let sys2 := { sys1 with
                      spawned := sys1.spawned ++ [test.path]
                      rootDir := sys1.rootDir ++ childEarly }
      let hnd := RunningProcessHandle.new test.path envars argv sys1.rootDir childEarly
      (Except.ok (TestHandle.Process hnd), sys2)
  | TraceEngine.Ptrace =>
    if isLinux then ptraceExec sys1
    else (Except.error (RunError.Engine "invalid execution engine Ptrace"), sys1)
  | TraceEngine.Auto =>
    (Except.error (RunError.Engine "invalid execution engine Auto"), sys1)

/-- Embedding of `launch_test`.  `linuxCov` stands for
`linux::get_test_coverage`, the platform module compiled only on linux.  On
any other platform the `Ptrace` arm, and the catch-all arm for any engine
other than `Ptrace`/`Llvm`, return `TestCoverage("Unsupported OS")` without
touching the system state. -/
def launch_test (isLinux : Bool)
    (linuxCov : SysState → Except RunError (Option TestHandle) × SysState)
    (ptraceExec : SysState → Except RunError TestHandle × SysState)
    (canSetDir : Path → Bool) (childEarly : List DirEntry)
    (spawnErr : Option RunError)
    (test : TestBinary) (config : Config) (ignored : Bool) (sys : SysState) :
    Except RunError (Option TestHandle) × SysState :=
  match config.engine with
  | TraceEngine.Ptrace =>
    if isLinux then linuxCov sys
    else (Except.error (RunError.TestCoverage "Unsupported OS"), sys)
  | TraceEngine.Llvm =>
    match execute_test isLinux ptraceExec canSetDir childEarly spawnErr
        test ignored config sys with
    | (Except.ok h, s) => (Except.ok (some h), s)
    | (Except.error e, s) => (Except.error e, s)
  | TraceEngine.Auto =>
    (Except.error (RunError.TestCoverage "Unsupported OS"), sys)

/-- Modelled from the spec: the Coverage State Machine's `TestState`
(module `statemachine`, outside this file's source): `End` is terminal and
carries the process exit code. -/
inductive TestState where
  | Initialise
  | WaitForSignal
  | HandleBreakpoint
  | SingleStep
  | WaitInstrumentedExit
  | ParseArtifacts
  | End (code : Int)
deriving DecidableEq

/-- Modelled from the spec: `is_finished()` is true only for `End`. -/
def TestState.is_finished : TestState → Bool
  | TestState.End _ => true
  | _ => false

/-- The trace map, treated opaquely by this module: per source location
(file, line) a hit count. -/
abbrev TraceMap := List ((Path × Nat) × Nat)

/-- A step of the state machine (`state.step(&mut data, config)`): from the
current state and the mutable trace map, either an error or the next state
and updated trace map.  The step function itself lives in `statemachine`,
outside this module; `collect_coverage` is parametric in it. -/
abbrev StepFun := TestState → TraceMap → Except RunError (TestState × TraceMap)

/-- The driving loop of `collect_coverage`: repeatedly request the next
state; a step error propagates (the `?` operator); when `is_finished()`
holds, stop and report the trace map with the exit code carried by `End`
(`ret_code` stays `0` for any other finished state).  `fuel` bounds the
number of iterations of the source's unbounded `loop`; `Except.ok none`
means the loop has not yet terminated within the bound. -/
def collect_loop (step : StepFun) :
    Nat → TestState → TraceMap → Except RunError (Option (TraceMap × Int))
  | 0, _, _ => Except.ok none
  | fuel + 1, st, tm =>
    match step st tm with
    | Except.error e => Except.error e
    | Except.ok (st', tm') =>
      if st'.is_finished then
        match st' with
        | TestState.End i => Except.ok (some (tm', i))
        | _ => Except.ok (some (tm', 0))
      else collect_loop step fuel st' tm'

/-- Embedding of `collect_coverage`: build the trace map skeleton
(`generate_tracemap`, outside this module, passed as `generated` and
propagated through `?` on error), then drive the state machine from the
initial state `create_state_machine` returns. -/
def collect_coverage (step : StepFun) (generated : Except RunError TraceMap)
    (fuel : Nat) (initState : TestState) :
    Except RunError (Option (TraceMap × Int)) :=
  match generated with
  | Except.error e => Except.error e
  | Except.ok traces => collect_loop step fuel initState traces

/-- Embedding of `get_test_coverage`, parametric in the result of
`launch_test` and in the result of `collect_coverage` (the source's
`Result<(TraceMap, i32), RunError>`): a launch error propagates unchanged; a
skipped test gives `Ok(None)`; after a successful launch a collection error
`e` is rewrapped as `RunError::TestCoverage(e.to_string())` and a collection
success is returned as `Ok(Some _)`. -/
def get_test_coverage (launch : Except RunError (Option TestHandle))
    (collected : Except RunError (TraceMap × Int)) :
    Except RunError (Option (TraceMap × Int)) :=
  match launch with
  | Except.error e => Except.error e
  | Except.ok none => Except.ok none
  | Except.ok (some _) =>
    match collected with
    | Except.ok t => Except.ok (some t)
    | Except.error e => Except.error (RunError.TestCoverage (errToString e))

/-- Modelled from the spec: the instrumentation collector's later
classification of this run's outputs — diff the post-run listing, filtered
to the profraw extension, against the pre-run snapshot. -/
def newProfraws (postRun : List DirEntry) (existing : List Path) : List Path :=
  (profrawFilter postRun).filter fun p => ¬ existing.contains p

/-- The environment the child of `execute_test` was spawned with, read off a
result of `execute_test`; empty when no child was spawned. -/
def spawnedEnv (r : Except RunError TestHandle × SysState) :
    List (String × String) :=
  match r.1 with
  | Except.ok (TestHandle.Process h) => h.cmdEnv
  | _ => []

/-- A collection of small concrete inputs used to instantiate the theorems
of this development on closed terms. -/
def sampleBinary : TestBinary :=
  { path := "/target/debug/deps/demo"
    fileName := "demo"
    pkgName := some "demo"
    pkgVersion := some "0.1.0"
    pkgAuthors := some ["a", "b"]
    manifestDir := some "/proj/demo" }

/-- A sample configuration selecting the instrumentation-log engine. -/
def sampleLlvmConfig : Config :=
  { engine := TraceEngine.Llvm
    root := "/proj"
    verbose := false
    varargs := []
    color := Color.Auto }

/-- A sample initial ambient state. -/
def sampleSys : SysState :=
  { cwd := "/orig"
    envVars := [("PATH", "/usr/bin")]
    rootDir := []
    spawned := [] }

/-- A trivial stand-in for the linux platform executor, used to instantiate
the platform-parametric theorems on closed terms. -/
def noPtrace : SysState → Except RunError TestHandle × SysState :=
  fun s => (Except.error (RunError.Engine "unused"), s)

/-- A trivial stand-in for `linux::get_test_coverage`. -/
def noLinuxCov : SysState → Except RunError (Option TestHandle) × SysState :=
  fun s => (Except.ok none, s)

/-- Whether the selected engine is unsupported on the current platform:
`Ptrace` off linux, or any engine other than `Ptrace`/`Llvm`. -/
def unsupportedEngine (isLinux : Bool) (engine : TraceEngine) : Prop :=
  (engine = TraceEngine.Ptrace ∧ isLinux = false) ∨
    (engine ≠ TraceEngine.Ptrace ∧ engine ≠ TraceEngine.Llvm)

instance (isLinux : Bool) (engine : TraceEngine) :
    Decidable (unsupportedEngine isLinux engine) := by
  unfold unsupportedEngine; infer_instance

/-- `profrawFilter` distributes over concatenation of listings. -/
theorem profrawFilter_append (a b : List DirEntry) :
    profrawFilter (a ++ b) = profrawFilter a ++ profrawFilter b := by
  simp [profrawFilter, List.filter_append]

/-- C3: whenever the selected engine is unsupported on the current platform
(`Ptrace` off linux, or any engine other than `Ptrace`/`Llvm`), `launch_test`
returns the `TestCoverage` error `"Unsupported OS"` with the system state
untouched — in particular no process is spawned. -/
theorem unsupported_engine_no_spawn (isLinux : Bool)
    (linuxCov : SysState → Except RunError (Option TestHandle) × SysState)
    (ptraceExec : SysState → Except RunError TestHandle × SysState)
    (canSetDir : Path → Bool) (childEarly : List DirEntry)
    (spawnErr : Option RunError) (test : TestBinary) (config : Config)
    (ignored : Bool) (sys : SysState)
    (h : unsupportedEngine isLinux config.engine) :
    launch_test isLinux linuxCov ptraceExec canSetDir childEarly spawnErr
        test config ignored sys
      = (Except.error (RunError.TestCoverage "Unsupported OS"), sys) ∧
    (launch_test isLinux linuxCov ptraceExec canSetDir childEarly spawnErr
        test config ignored sys).2.spawned = sys.spawned := by
  have hmain : launch_test isLinux linuxCov ptraceExec canSetDir childEarly
      spawnErr test config ignored sys
      = (Except.error (RunError.TestCoverage "Unsupported OS"), sys) := by
    cases he : config.engine with
    | Ptrace =>
      have hl : isLinux = false := by
        rcases h with ⟨_, hl⟩ | ⟨hp, _⟩
        · exact hl
        · exact absurd he hp
      simp [launch_test, he, hl]
    | Llvm =>
      exfalso
      rcases h with ⟨hp, _⟩ | ⟨_, hl⟩
      · exact TraceEngine.noConfusion (he.symm.trans hp)
      · exact hl he
    | Auto => simp [launch_test, he]
  exact ⟨hmain, by rw [hmain]⟩

/-- C3 witness: a concrete unsupported instance — `Ptrace` on a non-linux
platform. -/
theorem unsupported_engine_no_spawn_witness :
    unsupportedEngine false TraceEngine.Ptrace ∧
    launch_test false noLinuxCov noPtrace (fun _ => true) [] none
        sampleBinary
        { engine := TraceEngine.Ptrace, root := "/proj", verbose := false,
          varargs := [], color := Color.Auto }
        false sampleSys
      = (Except.error (RunError.TestCoverage "Unsupported OS"), sampleSys) :=
  ⟨by decide,
   (unsupported_engine_no_spawn false noLinuxCov noPtrace (fun _ => true) [] none
      sampleBinary
      { engine := TraceEngine.Ptrace, root := "/proj", verbose := false,
        varargs := [], color := Color.Auto }
      false sampleSys (by decide)).1⟩

/-- C7: before spawning under the instrumentation-log engine (the engine
`launch_test` routes to `execute_test`), provided the directory change
succeeds, `execute_test` sets the working directory to the binary's manifest
directory when one is present and to the configured root otherwise. -/
theorem execute_test_workdir_selection (isLinux : Bool)
    (ptraceExec : SysState → Except RunError TestHandle × SysState)
    (canSetDir : Path → Bool) (childEarly : List DirEntry)
    (spawnErr : Option RunError) (test : TestBinary) (ignored : Bool)
    (config : Config) (sys : SysState)
    (hE : config.engine = TraceEngine.Llvm)
    (hset : canSetDir (cwdTarget test config) = true) :
    (execute_test isLinux ptraceExec canSetDir childEarly spawnErr
        test ignored config sys).2.cwd = cwdTarget test config ∧
    (∀ md, test.manifestDir = some md → cwdTarget test config = md) ∧
    (test.manifestDir = none → cwdTarget test config = config.root) := by
  refine ⟨?_, ?_, ?_⟩
  · cases spawnErr <;> simp [execute_test, hE, hset]
  · intro md hmd; simp [cwdTarget, hmd]
  · intro hmd; simp [cwdTarget, hmd]

/-- C7 witness: a concrete run with a manifest directory present. -/
theorem execute_test_workdir_selection_witness :
    sampleLlvmConfig.engine = TraceEngine.Llvm ∧
    (execute_test false noPtrace (fun _ => true) [] none
        sampleBinary false sampleLlvmConfig sampleSys).2.cwd
      = cwdTarget sampleBinary sampleLlvmConfig :=
  ⟨by decide,
   (execute_test_workdir_selection false noPtrace (fun _ => true) [] none
      sampleBinary false sampleLlvmConfig sampleSys (by decide) (by decide)).1⟩

/-- C4 counterexample: a concrete launch after which the calling process's
working directory is still the binary's manifest directory, not the original
one — the `env::set_current_dir` made before spawn is never undone, so the
change persists after the launch completes. -/
theorem workdir_change_persists_counterexample :
    (execute_test false noPtrace (fun _ => true) [] none
        sampleBinary false sampleLlvmConfig sampleSys).2.cwd = "/proj/demo" ∧
    sampleSys.cwd = "/orig" ∧ ("/proj/demo" : Path) ≠ "/orig" := by
  refine ⟨by rfl, by rfl, by decide⟩

/-- C4 (amended): the working-directory change made by `execute_test` before
spawn is not restored or scoped; whenever the change succeeds and targets a
directory different from the current one, the new directory persists in the
post-launch state. -/
theorem workdir_change_persists (isLinux : Bool)
    (ptraceExec : SysState → Except RunError TestHandle × SysState)
    (canSetDir : Path → Bool) (childEarly : List DirEntry)
    (spawnErr : Option RunError) (test : TestBinary) (ignored : Bool)
    (config : Config) (sys : SysState)
    (hE : config.engine = TraceEngine.Llvm)
    (hset : canSetDir (cwdTarget test config) = true)
    (hne : cwdTarget test config ≠ sys.cwd) :
    (execute_test isLinux ptraceExec canSetDir childEarly spawnErr
        test ignored config sys).2.cwd = cwdTarget test config ∧
    (execute_test isLinux ptraceExec canSetDir childEarly spawnErr
        test ignored config sys).2.cwd ≠ sys.cwd := by
  have h : (execute_test isLinux ptraceExec canSetDir childEarly spawnErr
      test ignored config sys).2.cwd = cwdTarget test config := by
    cases spawnErr <;> simp [execute_test, hE, hset]
  exact ⟨h, by rw [h]; exact hne⟩

/-- C4 witness: concrete instantiation of the persistence theorem. -/
theorem workdir_change_persists_witness :
    cwdTarget sampleBinary sampleLlvmConfig ≠ sampleSys.cwd ∧
    (execute_test false noPtrace (fun _ => true) [] none
        sampleBinary false sampleLlvmConfig sampleSys).2.cwd ≠ sampleSys.cwd :=
  ⟨by decide,
   (workdir_change_persists false noPtrace (fun _ => true) [] none
      sampleBinary false sampleLlvmConfig sampleSys (by decide) (by decide)
      (by decide)).2⟩

/-- C10: when `env::set_current_dir` fails, `execute_test` discards the
failure (`let _ = ...`): the working directory stays what it was, no error is
returned, and the test is still spawned. -/
theorem chdir_failure_ignored (isLinux : Bool)
    (ptraceExec : SysState → Except RunError TestHandle × SysState)
    (canSetDir : Path → Bool) (childEarly : List DirEntry)
    (test : TestBinary) (ignored : Bool) (config : Config) (sys : SysState)
    (hE : config.engine = TraceEngine.Llvm)
    (hset : canSetDir (cwdTarget test config) = false) :
    (execute_test isLinux ptraceExec canSetDir childEarly none
        test ignored config sys).2.cwd = sys.cwd ∧
    (∃ h, (execute_test isLinux ptraceExec canSetDir childEarly none
        test ignored config sys).1 = Except.ok h) ∧
    (execute_test isLinux ptraceExec canSetDir childEarly none
        test ignored config sys).2.spawned = sys.spawned ++ [test.path] := by
  refine ⟨?_, ?_, ?_⟩
  · simp [execute_test, hE, hset]
  · refine ⟨TestHandle.Process
      (RunningProcessHandle.new test.path
        (execute_envars sys.envVars test config
          ++ [("LLVM_PROFILE_FILE", test.fileName ++ "_%p.profraw")])
        (execute_argv ignored config) sys.rootDir childEarly), ?_⟩
    simp [execute_test, hE, hset]
  · simp [execute_test, hE, hset]

/-- The environment of the child spawned by `execute_test` under the
instrumentation-log engine: the assembled environment plus the
`LLVM_PROFILE_FILE` template. -/
theorem spawnedEnv_execute_test (isLinux : Bool)
    (ptraceExec : SysState → Except RunError TestHandle × SysState)
    (canSetDir : Path → Bool) (childEarly : List DirEntry)
    (test : TestBinary) (ignored : Bool) (config : Config) (sys : SysState)
    (hE : config.engine = TraceEngine.Llvm) :
    spawnedEnv (execute_test isLinux ptraceExec canSetDir childEarly none
        test ignored config sys)
      = execute_envars sys.envVars test config
          ++ [("LLVM_PROFILE_FILE", test.fileName ++ "_%p.profraw")] := by
  cases h : canSetDir (cwdTarget test config) <;>
    simp [execute_test, spawnedEnv, hE, h, RunningProcessHandle.new]

/-- Membership in the assembled child environment, by segment. -/
theorem mem_execute_envars (kv : String × String)
    (sysEnv : List (String × String)) (test : TestBinary) (config : Config) :
    kv ∈ execute_envars sysEnv test config ↔
      kv ∈ sysEnv ∨
      (config.verbose = true ∧ kv = ("RUST_BACKTRACE", "1")) ∨
      (∃ s, test.pkgName = some s ∧ kv = ("CARGO_PKG_NAME", s)) ∨
      (∃ s, test.pkgVersion = some s ∧ kv = ("CARGO_PKG_VERSION", s)) ∨
      (∃ s, test.pkgAuthors = some s ∧
          kv = ("CARGO_PKG_AUTHORS", String.intercalate ":" s)) ∨
      (∃ s, test.manifestDir = some s ∧ kv = ("CARGO_MANIFEST_DIR", s)) := by
  cases hv : config.verbose <;> cases hn : test.pkgName <;>
    cases hver : test.pkgVersion <;> cases ha : test.pkgAuthors <;>
    cases hm : test.manifestDir <;>
    simp [execute_envars, optPair, hv, hn, hver, ha, hm, or_assoc]

/-- C10 witness: concrete run in which every directory change fails. -/
theorem chdir_failure_ignored_witness :
    (execute_test false noPtrace (fun _ => false) [] none
        sampleBinary false sampleLlvmConfig sampleSys).2.cwd = sampleSys.cwd ∧
    (execute_test false noPtrace (fun _ => false) [] none
        sampleBinary false sampleLlvmConfig sampleSys).2.spawned
      = sampleSys.spawned ++ [sampleBinary.path] :=
  ⟨(chdir_failure_ignored false noPtrace (fun _ => false) [] sampleBinary
      false sampleLlvmConfig sampleSys (by decide) (by decide)).1,
   (chdir_failure_ignored false noPtrace (fun _ => false) [] sampleBinary
      false sampleLlvmConfig sampleSys (by decide) (by decide)).2.2⟩

/-- C6: every launch under the instrumentation-log engine places
`LLVM_PROFILE_FILE` in the child environment, with a value that is the test
file name followed by the `%p` process-id placeholder and the fixed
`.profraw` extension. -/
theorem llvm_profile_file_env (isLinux : Bool)
    (ptraceExec : SysState → Except RunError TestHandle × SysState)
    (canSetDir : Path → Bool) (childEarly : List DirEntry)
    (test : TestBinary) (ignored : Bool) (config : Config) (sys : SysState)
    (hE : config.engine = TraceEngine.Llvm) :
    ("LLVM_PROFILE_FILE", test.fileName ++ "_%p.profraw") ∈
        spawnedEnv (execute_test isLinux ptraceExec canSetDir childEarly none
          test ignored config sys) ∧
    test.fileName ++ "_%p.profraw"
      = test.fileName ++ ("_" ++ ("%p" ++ ".profraw")) := by
  constructor
  · rw [spawnedEnv_execute_test isLinux ptraceExec canSetDir childEarly
      test ignored config sys hE]
    exact List.mem_append_right _ (List.mem_singleton.mpr rfl)
  · exact congrArg (fun s => test.fileName ++ s)
      (by decide : "_%p.profraw" = "_" ++ ("%p" ++ ".profraw"))

/-- C6 witness: the concrete sample launch carries the template variable. -/
theorem llvm_profile_file_env_witness :
    ("LLVM_PROFILE_FILE", sampleBinary.fileName ++ "_%p.profraw") ∈
        spawnedEnv (execute_test false noPtrace (fun _ => true) [] none
          sampleBinary false sampleLlvmConfig sampleSys) :=
  (llvm_profile_file_env false noPtrace (fun _ => true) [] sampleBinary false
    sampleLlvmConfig sampleSys (by decide)).1

/-- C8 counterexample: when the inherited environment already contains
`RUST_BACKTRACE=1`, the child environment contains the backtrace variable
although the verbosity flag is unset — the claimed "exactly when" fails. -/
theorem env_backtrace_counterexample :
    ("RUST_BACKTRACE", "1") ∈
        spawnedEnv (execute_test false noPtrace (fun _ => true) [] none
          sampleBinary false sampleLlvmConfig
          { cwd := "/orig", envVars := [("RUST_BACKTRACE", "1")],
            rootDir := [], spawned := [] }) ∧
    sampleLlvmConfig.verbose = false := by
  constructor
  · rw [spawnedEnv_execute_test false noPtrace (fun _ => true) [] sampleBinary
      false sampleLlvmConfig
      { cwd := "/orig", envVars := [("RUST_BACKTRACE", "1")],
        rootDir := [], spawned := [] } rfl]
    exact List.mem_append_left _
      ((mem_execute_envars _ _ _ _).mpr (Or.inl (List.mem_singleton.mpr rfl)))
  · rfl

/-- C8 (amended): under the instrumentation-log engine the child environment
inherits every variable of the current environment; beyond that, whenever the
current environment does not already define the respective key, it contains
`RUST_BACKTRACE=1` exactly when the verbosity flag is set, and each package
metadata variable exactly when the corresponding field of the test binary
descriptor is available. -/
theorem child_env_composition (isLinux : Bool)
    (ptraceExec : SysState → Except RunError TestHandle × SysState)
    (canSetDir : Path → Bool) (childEarly : List DirEntry)
    (test : TestBinary) (ignored : Bool) (config : Config) (sys : SysState)
    (hE : config.engine = TraceEngine.Llvm) :
    (∀ kv, kv ∈ sys.envVars →
      kv ∈ spawnedEnv (execute_test isLinux ptraceExec canSetDir childEarly
        none test ignored config sys)) ∧
    ((∀ v, ("RUST_BACKTRACE", v) ∉ sys.envVars) →
      ((("RUST_BACKTRACE", "1") ∈
          spawnedEnv (execute_test isLinux ptraceExec canSetDir childEarly
            none test ignored config sys)) ↔ config.verbose = true)) ∧
    ((∀ v, ("CARGO_PKG_NAME", v) ∉ sys.envVars) →
      ((∃ v, ("CARGO_PKG_NAME", v) ∈
          spawnedEnv (execute_test isLinux ptraceExec canSetDir childEarly
            none test ignored config sys)) ↔ test.pkgName.isSome = true)) ∧
    ((∀ v, ("CARGO_PKG_VERSION", v) ∉ sys.envVars) →
      ((∃ v, ("CARGO_PKG_VERSION", v) ∈
          spawnedEnv (execute_test isLinux ptraceExec canSetDir childEarly
            none test ignored config sys)) ↔ test.pkgVersion.isSome = true)) ∧
    ((∀ v, ("CARGO_PKG_AUTHORS", v) ∉ sys.envVars) →
      ((∃ v, ("CARGO_PKG_AUTHORS", v) ∈
          spawnedEnv (execute_test isLinux ptraceExec canSetDir childEarly
            none test ignored config sys)) ↔ test.pkgAuthors.isSome = true)) ∧
    ((∀ v, ("CARGO_MANIFEST_DIR", v) ∉ sys.envVars) →
      ((∃ v, ("CARGO_MANIFEST_DIR", v) ∈
          spawnedEnv (execute_test isLinux ptraceExec canSetDir childEarly
            none test ignored config sys)) ↔ test.manifestDir.isSome = true)) := by
  rw [spawnedEnv_execute_test isLinux ptraceExec canSetDir childEarly
    test ignored config sys hE]
  refine ⟨?_, ?_, ?_, ?_, ?_, ?_⟩
  · intro kv hkv
    exact List.mem_append_left _ ((mem_execute_envars _ _ _ _).mpr (Or.inl hkv))
  · intro h
    constructor
    · intro hm
      rcases List.mem_append.mp hm with hm | hm
      · rcases (mem_execute_envars _ _ _ _).mp hm with
          hin | ⟨hv, _⟩ | ⟨s, _, heq⟩ | ⟨s, _, heq⟩ | ⟨s, _, heq⟩ | ⟨s, _, heq⟩
        · exact absurd hin (h "1")
        · exact hv
        all_goals simp at heq
      · have heq := List.mem_singleton.mp hm
        simp at heq
    · intro hv
      exact List.mem_append_left _
        ((mem_execute_envars _ _ _ _).mpr (Or.inr (Or.inl ⟨hv, rfl⟩)))
  · intro h
    constructor
    · rintro ⟨v, hm⟩
      rcases List.mem_append.mp hm with hm | hm
      · rcases (mem_execute_envars _ _ _ _).mp hm with
          hin | ⟨_, heq⟩ | ⟨s, hs, heq⟩ | ⟨s, _, heq⟩ | ⟨s, _, heq⟩ | ⟨s, _, heq⟩
        · exact absurd hin (h v)
        · simp at heq
        · rw [hs]; rfl
        all_goals simp at heq
      · have heq := List.mem_singleton.mp hm
        simp at heq
    · intro hsome
      rcases ho : test.pkgName with _ | s
      · rw [ho] at hsome; cases hsome
      · exact ⟨s, List.mem_append_left _ ((mem_execute_envars _ _ _ _).mpr
          (Or.inr (Or.inr (Or.inl ⟨s, ho, rfl⟩))))⟩
  · intro h
    constructor
    · rintro ⟨v, hm⟩
      rcases List.mem_append.mp hm with hm | hm
      · rcases (mem_execute_envars _ _ _ _).mp hm with
          hin | ⟨_, heq⟩ | ⟨s, _, heq⟩ | ⟨s, hs, heq⟩ | ⟨s, _, heq⟩ | ⟨s, _, heq⟩
        · exact absurd hin (h v)
        · simp at heq
        · simp at heq
        · rw [hs]; rfl
        all_goals simp at heq
      · have heq := List.mem_singleton.mp hm
        simp at heq
    · intro hsome
      rcases ho : test.pkgVersion with _ | s
      · rw [ho] at hsome; cases hsome
      · exact ⟨s, List.mem_append_left _ ((mem_execute_envars _ _ _ _).mpr
          (Or.inr (Or.inr (Or.inr (Or.inl ⟨s, ho, rfl⟩)))))⟩
  · intro h
    constructor
    · rintro ⟨v, hm⟩
      rcases List.mem_append.mp hm with hm | hm
      · rcases (mem_execute_envars _ _ _ _).mp hm with
          hin | ⟨_, heq⟩ | ⟨s, _, heq⟩ | ⟨s, _, heq⟩ | ⟨s, hs, heq⟩ | ⟨s, _, heq⟩
        · exact absurd hin (h v)
        · simp at heq
        · simp at heq
        · simp at heq
        · rw [hs]; rfl
        · simp at heq
      · have heq := List.mem_singleton.mp hm
        simp at heq
    · intro hsome
      rcases ho : test.pkgAuthors with _ | s
      · rw [ho] at hsome; cases hsome
      · exact ⟨String.intercalate ":" s, List.mem_append_left _
          ((mem_execute_envars _ _ _ _).mpr
            (Or.inr (Or.inr (Or.inr (Or.inr (Or.inl ⟨s, ho, rfl⟩))))))⟩
  · intro h
    constructor
    · rintro ⟨v, hm⟩
      rcases List.mem_append.mp hm with hm | hm
      · rcases (mem_execute_envars _ _ _ _).mp hm with
          hin | ⟨_, heq⟩ | ⟨s, _, heq⟩ | ⟨s, _, heq⟩ | ⟨s, _, heq⟩ | ⟨s, hs, heq⟩
        · exact absurd hin (h v)
        · simp at heq
        · simp at heq
        · simp at heq
        · simp at heq
        · rw [hs]; rfl
      · have heq := List.mem_singleton.mp hm
        simp at heq
    · intro hsome
      rcases ho : test.manifestDir with _ | s
      · rw [ho] at hsome; cases hsome
      · exact ⟨s, List.mem_append_left _ ((mem_execute_envars _ _ _ _).mpr
          (Or.inr (Or.inr (Or.inr (Or.inr (Or.inr ⟨s, ho, rfl⟩))))))⟩

/-- C8 witness: the amended composition applied to the sample inputs. -/
theorem child_env_composition_witness :
    ("PATH", "/usr/bin") ∈
      spawnedEnv (execute_test false noPtrace (fun _ => true) [] none
        sampleBinary false sampleLlvmConfig sampleSys) :=
  (child_env_composition false noPtrace (fun _ => true) [] sampleBinary false
    sampleLlvmConfig sampleSys (by decide)).1 ("PATH", "/usr/bin")
    (List.mem_singleton.mpr rfl)

/-- C5: the driving loop of `collect_coverage` repeatedly requests the next
state; `is_finished()` holds only for `End`; the loop keeps stepping while
the state is not finished and stops as soon as it is, returning the trace
map together with the exit code carried by `End`. -/
theorem collect_loop_drives_until_end (step : StepFun) :
    (∀ s : TestState, s.is_finished = true ↔ ∃ i, s = TestState.End i) ∧
    (∀ fuel s tm,
      collect_coverage step (Except.ok tm) fuel s = collect_loop step fuel s tm) ∧
    (∀ fuel s tm tm' c, step s tm = Except.ok (TestState.End c, tm') →
      collect_loop step (fuel + 1) s tm = Except.ok (some (tm', c))) ∧
    (∀ fuel s s' tm tm', step s tm = Except.ok (s', tm') →
      s'.is_finished = false →
      collect_loop step (fuel + 1) s tm = collect_loop step fuel s' tm') := by
  refine ⟨?_, ?_, ?_, ?_⟩
  · intro s; cases s <;> simp [TestState.is_finished]
  · intro fuel s tm; rfl
  · intro fuel s tm tm' c h
    simp [collect_loop, h, TestState.is_finished]
  · intro fuel s s' tm tm' h hfin
    simp [collect_loop, h, hfin]

/-- C5 witness: one step to `End 7` stops the loop and reports the map and
exit code. -/
theorem collect_loop_drives_until_end_witness :
    collect_loop (fun _ tm => Except.ok (TestState.End 7, tm)) 1
        TestState.Initialise [(("src/lib.rs", 3), 2)]
      = Except.ok (some ([(("src/lib.rs", 3), 2)], 7)) :=
  (collect_loop_drives_until_end
      (fun _ tm => Except.ok (TestState.End 7, tm))).2.2.1
    0 TestState.Initialise [(("src/lib.rs", 3), 2)] [(("src/lib.rs", 3), 2)] 7 rfl

/-- C1 counterexample: when a step returns an error, `collect_coverage`
propagates the error through `?` — the partially populated trace map is
dropped — and `get_test_coverage` surfaces only
`TestCoverage(e.to_string())`; no trace map reaches the caller. -/
theorem step_error_discards_tracemap :
    collect_coverage (fun _ _ => Except.error (RunError.TestRuntime "ptrace failed"))
        (Except.ok [(("src/lib.rs", 1), 0)]) 5 TestState.Initialise
      = Except.error (RunError.TestRuntime "ptrace failed") ∧
    get_test_coverage (Except.ok (some (TestHandle.Id 7)))
        (Except.error (RunError.TestRuntime "ptrace failed"))
      = Except.error (RunError.TestCoverage "ptrace failed") :=
  ⟨rfl, rfl⟩

/-- C1 (amended): the partially populated trace map reaches the caller when
the state machine surfaces a mid-run OS failure as a transition to `End`
carrying a synthetic failure code (as the spec prescribes), not when the
step itself returns an error: whenever a step yields `End c`,
`collect_coverage` returns the map as mutated so far paired with `c`, and
`get_test_coverage` hands that pair to the caller. -/
theorem end_state_returns_partial_tracemap (step : StepFun) (s : TestState)
    (tm tm' : TraceMap) (c : Int) (fuel : Nat) (hnd : TestHandle)
    (hstep : step s tm = Except.ok (TestState.End c, tm')) :
    collect_coverage step (Except.ok tm) (fuel + 1) s
      = Except.ok (some (tm', c)) ∧
    get_test_coverage (Except.ok (some hnd)) (Except.ok (tm', c))
      = Except.ok (some (tm', c)) := by
  constructor
  · simp [collect_coverage, collect_loop, hstep, TestState.is_finished]
  · rfl

/-- C1 witness: a failure step that moves to `End (-1)` still delivers the
partially populated map. -/
theorem end_state_returns_partial_tracemap_witness :
    collect_coverage (fun _ tm => Except.ok (TestState.End (-1), tm))
        (Except.ok [(("src/lib.rs", 3), 2)]) 1 TestState.WaitForSignal
      = Except.ok (some ([(("src/lib.rs", 3), 2)], -1)) :=
  (end_state_returns_partial_tracemap
      (fun _ tm => Except.ok (TestState.End (-1), tm))
      TestState.WaitForSignal [(("src/lib.rs", 3), 2)] [(("src/lib.rs", 3), 2)]
      (-1) 0 (TestHandle.Id 7) rfl).1

/-- C9: after a successful launch, every collection error `e` reaches the
caller of `get_test_coverage` as `RunError.TestCoverage (errToString e)` —
only the stringified message survives; the original variant does not. -/
theorem collect_error_stringified (e : RunError) (hnd : TestHandle) :
    get_test_coverage (Except.ok (some hnd)) (Except.error e)
      = Except.error (RunError.TestCoverage (errToString e)) := rfl

/-- C2 counterexample: `RunningProcessHandle::new` spawns first
(`cmd.spawn()?`) and only then reads the directory, so a `c_123.profraw`
the child writes before the snapshot is recorded as pre-existing and the
later diff classifies nothing as new — refuting both "before the child
process is spawned" and "only `c_123.profraw` is classified as new". -/
theorem snapshot_after_spawn_counterexample :
    (RunningProcessHandle.new "/t/bin" [] []
        [⟨"a.profraw", true⟩, ⟨"b.profraw", true⟩]
        [⟨"c_123.profraw", true⟩]).existing_profraws
      = ["a.profraw", "b.profraw", "c_123.profraw"] ∧
    newProfraws
        [⟨"a.profraw", true⟩, ⟨"b.profraw", true⟩, ⟨"c_123.profraw", true⟩]
        (RunningProcessHandle.new "/t/bin" [] []
          [⟨"a.profraw", true⟩, ⟨"b.profraw", true⟩]
          [⟨"c_123.profraw", true⟩]).existing_profraws
      = [] := by
  exact ⟨by decide, by decide⟩

/-- C2 (amended): the enumeration happens just after `cmd.spawn()`; every
profraw file present in the root directory at snapshot time is recorded as
pre-existing. Provided the spawned process has written no profraw by the
snapshot, the recorded set is exactly the pre-spawn profraws, and a
`c_123.profraw` that appears afterwards is the only file the later diff
classifies as new. -/
theorem snapshot_records_preexisting_profraws (p : Path)
    (env : List (String × String)) (args : List String)
    (rootBefore childEarly : List DirEntry)
    (h1 : profrawFilter childEarly = [])
    (h2 : ("c_123.profraw" : Path) ∉ profrawFilter rootBefore) :
    (RunningProcessHandle.new p env args rootBefore childEarly).existing_profraws
      = profrawFilter rootBefore ∧
    newProfraws (rootBefore ++ childEarly ++ [⟨"c_123.profraw", true⟩])
        (RunningProcessHandle.new p env args rootBefore childEarly).existing_profraws
      = ["c_123.profraw"] := by
  have hex : (RunningProcessHandle.new p env args rootBefore
      childEarly).existing_profraws = profrawFilter rootBefore := by
    simp [RunningProcessHandle.new, profrawFilter_append, h1]
  refine ⟨hex, ?_⟩
  rw [hex]
  have hc : profrawFilter [⟨"c_123.profraw", true⟩] = ["c_123.profraw"] := by
    decide
  have hall : List.filter (fun q => !decide (q ∈ profrawFilter rootBefore))
      (profrawFilter rootBefore) = [] := by
    apply List.filter_eq_nil_iff.mpr
    intro a ha
    simp [ha]
  have hone : List.filter (fun q => !decide (q ∈ profrawFilter rootBefore))
      (["c_123.profraw"] : List Path) = ["c_123.profraw"] := by
    simp [h2]
  simp [newProfraws, profrawFilter_append, h1, hc, List.filter_append,
    hall, hone]

/-- C2 witness: the `a.profraw`/`b.profraw` scenario with a child that has
written nothing by snapshot time. -/
theorem snapshot_records_preexisting_profraws_witness :
    profrawFilter ([] : List DirEntry) = [] ∧
    (RunningProcessHandle.new "/t/bin" [] []
        [⟨"a.profraw", true⟩, ⟨"b.profraw", true⟩] []).existing_profraws
      = profrawFilter [⟨"a.profraw", true⟩, ⟨"b.profraw", true⟩] ∧
    newProfraws
        ([⟨"a.profraw", true⟩, ⟨"b.profraw", true⟩] ++ []
          ++ [⟨"c_123.profraw", true⟩])
        (RunningProcessHandle.new "/t/bin" [] []
          [⟨"a.profraw", true⟩, ⟨"b.profraw", true⟩] []).existing_profraws
      = ["c_123.profraw"] :=
  ⟨by decide,
   (snapshot_records_preexisting_profraws "/t/bin" [] []
      [⟨"a.profraw", true⟩, ⟨"b.profraw", true⟩] [] (by decide) (by decide)).1,
   (snapshot_records_preexisting_profraws "/t/bin" [] []
      [⟨"a.profraw", true⟩, ⟨"b.profraw", true⟩] [] (by decide) (by decide)).2⟩

end Tarpaulin
